import Mathlib

/- Batteries marks the `Rat` field operations `@[irreducible]`; re-enable
unfolding so that concrete rational computations can be settled by `decide`
(kernel reduction; no extra axioms involved). -/
set_option allowUnsafeReducibility true
attribute [semireducible] Rat.add Rat.mul Rat.sub Rat.div Rat.inv Rat.neg Rat.ofScientific

/-!
Verification development for the ZodiacAI astrology engine
(`astrology-engine/calculations/`).  Python floats are modelled as exact
rationals (`ℚ`), Python `datetime` values as rational day numbers (the
fractional part is the time of day), `timedelta(days = n)` as addition of an
integer, and the `strftime('%Y-%m-%d')` / `strptime` round trip as `Int.floor`
(the resulting datetime is the midnight of the calendar day).  Display-only
dictionary fields (pre-formatted strings, rounded duration echoes) that no
computation reads back are not modelled; every field that feeds a comparison
or a later computation is.
-/

namespace ZodiacAI

/-- Python `int(q)` on a float: truncation toward zero. -/
def pyInt (q : ℚ) : ℤ := if q < 0 then -Int.floor (-q) else Int.floor q

/-- Python float `%` with positive modulus: `a - b * floor (a / b)`, in `[0, b)`. -/
def pyMod (a b : ℚ) : ℚ := a - b * Int.floor (a / b)

theorem pyInt_eq_floor_of_nonneg {q : ℚ} (h : 0 ≤ q) : pyInt q = Int.floor q := by
  unfold pyInt
  rw [if_neg (not_lt.mpr h)]

/-! ## dasha_calculator.py : DashaCalculator -/

/-- The nine Vimshottari dasha lords. -/
inductive Lord where
  | Ketu | Venus | Sun | Moon | Mars | Rahu | Jupiter | Saturn | Mercury
deriving DecidableEq, Repr

/-- `DASHA_LORDS`: dasha lords in cycle order (120-year cycle). -/
def DASHA_LORDS : List Lord :=
  [Lord.Ketu, Lord.Venus, Lord.Sun, Lord.Moon, Lord.Mars,
   Lord.Rahu, Lord.Jupiter, Lord.Saturn, Lord.Mercury]

/-- `self.DASHA_LORDS.index(lord)`. -/
def lordIndex : Lord → ℕ
  | Lord.Ketu => 0 | Lord.Venus => 1 | Lord.Sun => 2 | Lord.Moon => 3
  | Lord.Mars => 4 | Lord.Rahu => 5 | Lord.Jupiter => 6 | Lord.Saturn => 7
  | Lord.Mercury => 8

/-- `self.DASHA_LORDS[n]` (all source indices are reduced `% 9`, hence in range). -/
def lordAt (n : ℕ) : Lord := DASHA_LORDS.getD n Lord.Ketu

/-- `DASHA_YEARS`: years for each Mahadasha. -/
def DASHA_YEARS : Lord → ℕ
  | Lord.Ketu => 7 | Lord.Venus => 20 | Lord.Sun => 6 | Lord.Moon => 10
  | Lord.Mars => 7 | Lord.Rahu => 18 | Lord.Jupiter => 16 | Lord.Saturn => 19
  | Lord.Mercury => 17

/-- `NAKSHATRA_LORDS`: the 27 nakshatras' ruling planets (9-lord cycle, three times). -/
def NAKSHATRA_LORDS : List Lord :=
  [Lord.Ketu, Lord.Venus, Lord.Sun, Lord.Moon, Lord.Mars,
   Lord.Rahu, Lord.Jupiter, Lord.Saturn, Lord.Mercury,
   Lord.Ketu, Lord.Venus, Lord.Sun, Lord.Moon, Lord.Mars,
   Lord.Rahu, Lord.Jupiter, Lord.Saturn, Lord.Mercury,
   Lord.Ketu, Lord.Venus, Lord.Sun, Lord.Moon, Lord.Mars,
   Lord.Rahu, Lord.Jupiter, Lord.Saturn, Lord.Mercury]

/-- `NAKSHATRA_NAMES`. -/
def NAKSHATRA_NAMES : List String :=
  ["Ashwini", "Bharani", "Krittika", "Rohini", "Mrigashira", "Ardra",
   "Punarvasu", "Pushya", "Ashlesha", "Magha", "Purva Phalguni", "Uttara Phalguni",
   "Hasta", "Chitra", "Swati", "Vishakha", "Anuradha", "Jyeshtha",
   "Mula", "Purva Ashadha", "Uttara Ashadha", "Shravana", "Dhanishta", "Shatabhisha",
   "Purva Bhadrapada", "Uttara Bhadrapada", "Revati"]

/-- `nakshatra_span = 360 / 27` (each nakshatra is 13 degrees 20 minutes). -/
def nakshatra_span : ℚ := 360 / 27

/-- `get_nakshatra_from_moon`: nakshatra index, name and remaining balance fraction. -/
def get_nakshatra_from_moon (moon_longitude : ℚ) : ℤ × String × ℚ :=
  let nakshatra_num := pyInt (moon_longitude / nakshatra_span)
  let position_in_nakshatra := pyMod moon_longitude nakshatra_span / nakshatra_span
  let balance := 1 - position_in_nakshatra
  (nakshatra_num, NAKSHATRA_NAMES.getD nakshatra_num.toNat "", balance)

/-- `get_birth_dasha_lord`: Mahadasha lord at birth from the Moon's nakshatra. -/
def get_birth_dasha_lord (moon_longitude : ℚ) : Lord :=
  NAKSHATRA_LORDS.getD (get_nakshatra_from_moon moon_longitude).1.toNat Lord.Ketu

/-- Result of `calculate_balance_dasha` (raw datetimes, not day-formatted). -/
structure BalanceDasha where
  dasha_lord : Lord
  start_date : ℚ
  end_date : ℚ
  remaining_years : ℚ
deriving DecidableEq, Repr

/-- `calculate_balance_dasha`: balance of the birth Mahadasha. -/
def calculate_balance_dasha (moon_longitude : ℚ) (birth_date : ℚ) : BalanceDasha :=
  let nakshatra_num := (get_nakshatra_from_moon moon_longitude).1
  let balance := (get_nakshatra_from_moon moon_longitude).2.2
  let dasha_lord := NAKSHATRA_LORDS.getD nakshatra_num.toNat Lord.Ketu
  let total_years := DASHA_YEARS dasha_lord
  let remaining_years := (total_years : ℚ) * balance
  let days_remaining := pyInt (remaining_years * 365.25)
  { dasha_lord := dasha_lord, start_date := birth_date,
    end_date := birth_date + (days_remaining : ℚ), remaining_years := remaining_years }

/-- One entry of the `calculate_mahadasha_sequence` result list.  `start_date`
and `end_date` are the `'%Y-%m-%d'`-formatted values, i.e. day numbers. -/
structure Mahadasha where
  lord : Lord
  start_date : ℤ
  end_date : ℤ
  duration_years : ℕ
deriving DecidableEq, Repr

/-- `int(years * 365.25)`: the whole-day length of a full Mahadasha. -/
def mahaDays (lord : Lord) : ℤ := pyInt ((DASHA_YEARS lord : ℚ) * 365.25)

/-- Loop body of `calculate_mahadasha_sequence`; `current_date` keeps the full
datetime while the appended entries store its formatted (floored) value. -/
def mahaSeqAux (start_index : ℕ) : ℚ → ℕ → ℕ → List Mahadasha
  | _, _, 0 => []
  | current_date, i, k + 1 =>
    let lord := lordAt ((start_index + i) % 9)
    let years := DASHA_YEARS lord
    let days : ℤ := pyInt ((years : ℚ) * 365.25)
    let end_date := current_date + (days : ℚ)
    { lord := lord, start_date := Int.floor current_date,
      end_date := Int.floor end_date, duration_years := years }
      :: mahaSeqAux start_index end_date (i + 1) k

/-- `calculate_mahadasha_sequence`: `num_dashas` Mahadashas starting from the
birth lord, chained end-to-end. -/
def calculate_mahadasha_sequence (birth_dasha_lord : Lord) (start_date : ℚ)
    (num_dashas : ℕ) : List Mahadasha :=
  mahaSeqAux (lordIndex birth_dasha_lord) start_date 0 num_dashas

/-- One entry of the `calculate_antardasha` result list (formatted dates). -/
structure Antardasha where
  mahadasha_lord : Lord
  antardasha_lord : Lord
  start_date : ℤ
  end_date : ℤ
deriving DecidableEq, Repr

/-- Loop body of `calculate_antardasha`: proportional duration
`(mahadasha_years * antardasha_years) / 120` years, floored to days, end date
clipped to the Mahadasha end, loop broken once the end is reached. -/
def antarAux (mahadasha_lord : Lord) (mahadasha_end : ℚ) (start_index : ℕ) :
    ℚ → ℕ → ℕ → List Antardasha
  | _, _, 0 => []
  | current_date, i, k + 1 =>
    let antardasha_lord := lordAt ((start_index + i) % 9)
    let proportional_years : ℚ :=
      ((DASHA_YEARS mahadasha_lord : ℚ) * (DASHA_YEARS antardasha_lord : ℚ)) / 120
    let days : ℤ := pyInt (proportional_years * 365.25)
    let end0 := current_date + (days : ℚ)
    let end_date := if mahadasha_end < end0 then mahadasha_end else end0
    let entry : Antardasha :=
      { mahadasha_lord := mahadasha_lord, antardasha_lord := antardasha_lord,
        start_date := Int.floor current_date, end_date := Int.floor end_date }
    if mahadasha_end ≤ end_date then [entry]
    else entry :: antarAux mahadasha_lord mahadasha_end start_index end_date (i + 1) k

/-- `calculate_antardasha`: the 9 sub-periods within a Mahadasha (the computed
`total_days` of the source is never read by the loop and is not modelled). -/
def calculate_antardasha (mahadasha_lord : Lord) (mahadasha_start mahadasha_end : ℚ) :
    List Antardasha :=
  antarAux mahadasha_lord mahadasha_end (lordIndex mahadasha_lord) mahadasha_start 0 9

/-- One entry of the `calculate_pratyantardasha` result list. -/
structure Pratyantardasha where
  mahadasha_lord : Lord
  antardasha_lord : Lord
  pratyantardasha_lord : Lord
  start_date : ℤ
  end_date : ℤ
  duration_days : ℤ
deriving DecidableEq, Repr

/-- Loop body of `calculate_pratyantardasha`: duration
`(maha * antar * pratyantar) / (120 * 120)` years, floored to days. -/
def pratAux (mahadasha_lord antardasha_lord : Lord) (antardasha_end : ℚ)
    (start_index : ℕ) : ℚ → ℕ → ℕ → List Pratyantardasha
  | _, _, 0 => []
  | current_date, i, k + 1 =>
    let pratyantar_lord := lordAt ((start_index + i) % 9)
    let proportional_years : ℚ :=
      ((DASHA_YEARS mahadasha_lord : ℚ) * (DASHA_YEARS antardasha_lord : ℚ) *
        (DASHA_YEARS pratyantar_lord : ℚ)) / (120 * 120)
    let days : ℤ := pyInt (proportional_years * 365.25)
    let end0 := current_date + (days : ℚ)
    let end_date := if antardasha_end < end0 then antardasha_end else end0
    let entry : Pratyantardasha :=
      { mahadasha_lord := mahadasha_lord, antardasha_lord := antardasha_lord,
        pratyantardasha_lord := pratyantar_lord,
        start_date := Int.floor current_date, end_date := Int.floor end_date,
        duration_days := Int.floor (end_date - current_date) }
    if antardasha_end ≤ end_date then [entry]
    else entry :: pratAux mahadasha_lord antardasha_lord antardasha_end start_index
      end_date (i + 1) k

/-- `calculate_pratyantardasha`: the sub-sub-periods within an Antardasha. -/
def calculate_pratyantardasha (mahadasha_lord antardasha_lord : Lord)
    (antardasha_start antardasha_end : ℚ) : List Pratyantardasha :=
  pratAux mahadasha_lord antardasha_lord antardasha_end (lordIndex antardasha_lord)
    antardasha_start 0 9

/-- Result dictionary of `get_current_dasha`. -/
structure CurrentDasha where
  mahadasha : Mahadasha
  antardasha : Antardasha
  pratyantardasha : Option Pratyantardasha
  current_date : ℤ
deriving DecidableEq, Repr

/-- Innermost loop of `get_current_dasha`: first Pratyantardasha whose closed
parsed-date interval contains the query. -/
def findPratyantar (current : ℚ) : List Pratyantardasha → Option Pratyantardasha
  | [] => none
  | p :: rest =>
    if (p.start_date : ℚ) ≤ current ∧ current ≤ (p.end_date : ℚ) then some p
    else findPratyantar current rest

/-- Middle loop of `get_current_dasha`: on the first containing Antardasha the
source computes the Pratyantardashas and returns unconditionally; if no
Antardasha contains the query the outer Mahadasha scan continues. -/
def findAntar (maha : Mahadasha) (current : ℚ) : List Antardasha → Option CurrentDasha
  | [] => none
  | antar :: rest =>
    if (antar.start_date : ℚ) ≤ current ∧ current ≤ (antar.end_date : ℚ) then
      let pratyantars := calculate_pratyantardasha maha.lord antar.antardasha_lord
        (antar.start_date : ℚ) (antar.end_date : ℚ)
      some { mahadasha := maha, antardasha := antar,
             pratyantardasha := findPratyantar current pratyantars,
             current_date := Int.floor current }
    else findAntar maha current rest

/-- Outer loop of `get_current_dasha` over the Mahadasha list. -/
def scanMahas (current : ℚ) : List Mahadasha → Option CurrentDasha
  | [] => none
  | maha :: rest =>
    if (maha.start_date : ℚ) ≤ current ∧ current ≤ (maha.end_date : ℚ) then
      let antardashas := calculate_antardasha maha.lord (maha.start_date : ℚ)
        (maha.end_date : ℚ)
      match findAntar maha current antardashas with
      | some r => some r
      | none => scanMahas current rest
    else scanMahas current rest

/-- `get_current_dasha`.  The source defaults `current_date` to
`datetime.now()` when the argument is `None`; the sampled wall-clock value is
made explicit as the `now` parameter. -/
def get_current_dasha (moon_longitude birth_date : ℚ) (current_date_opt : Option ℚ)
    (now : ℚ) : Option CurrentDasha :=
  let current_date := current_date_opt.getD now
  let birth_lord := (calculate_balance_dasha moon_longitude birth_date).dasha_lord
  let mahadashas := calculate_mahadasha_sequence birth_lord birth_date 9
  scanMahas current_date mahadashas

/-- One `detailed_timeline` entry of `generate_complete_dasha_timeline`. -/
structure TimelineEntry where
  mahadasha : Mahadasha
  antardashas : List Antardasha
deriving DecidableEq, Repr

/-- Timeline loop of `generate_complete_dasha_timeline`: stops at the first
Mahadasha starting more than `years_ahead` years after birth. -/
def timelineAux (birth_date years_ahead : ℚ) : List Mahadasha → List TimelineEntry
  | [] => []
  | maha :: rest =>
    if years_ahead < ((Int.floor ((maha.start_date : ℚ) - birth_date) : ℚ) / 365.25) then
      []
    else
      { mahadasha := maha,
        antardashas := calculate_antardasha maha.lord (maha.start_date : ℚ)
          (maha.end_date : ℚ) }
        :: timelineAux birth_date years_ahead rest

/-- Result of `generate_complete_dasha_timeline` (the rounded
`balance_at_birth_years` echo keeps the unrounded value here). -/
structure DashaTimeline where
  birth_date : ℤ
  birth_nakshatra : String
  birth_dasha_lord : Lord
  balance_at_birth_years : ℚ
  timeline : List TimelineEntry
deriving DecidableEq, Repr

/-- `generate_complete_dasha_timeline`. -/
def generate_complete_dasha_timeline (moon_longitude birth_date : ℚ)
    (years_ahead : ℚ) : DashaTimeline :=
  let balance := calculate_balance_dasha moon_longitude birth_date
  let mahadashas := calculate_mahadasha_sequence balance.dasha_lord birth_date 9
  { birth_date := Int.floor birth_date,
    birth_nakshatra := NAKSHATRA_NAMES.getD (pyInt (moon_longitude / (360 / 27))).toNat "",
    birth_dasha_lord := balance.dasha_lord,
    balance_at_birth_years := balance.remaining_years,
    timeline := timelineAux birth_date years_ahead mahadashas }

/-! ## base_calculator.py / transit_calculator.py / kundli_calculator.py

The Swiss Ephemeris is external: its per-body raw output (tropical longitude,
daily speed), the Julian-Day conversion, and the ayanamsa value are supplied
as function parameters; everything the repository computes from them is
modelled. -/

/-- The nine planets of the `PLANETS` tables (plus Ketu, added derived). -/
inductive Planet where
  | Sun | Moon | Mars | Mercury | Jupiter | Venus | Saturn | Rahu | Ketu
deriving DecidableEq, Repr

/-- The numeric fields of a planet dictionary entry (the pre-formatted display
string and the sign name, both derived from these, are not modelled).
`sign_num` is the stored 1-based value. -/
structure PlanetEntry where
  longitude : ℚ
  sign_num : ℤ
  degree : ℚ
  speed : ℚ
  is_retrograde : Bool
deriving DecidableEq, Repr

/-- `BaseCalculator.get_planetary_position`: sidereal reduction of one
ephemeris result. -/
def get_planetary_position (tropical_lon ayanamsa speed : ℚ) : PlanetEntry :=
  let sidereal_lon := pyMod (tropical_lon - ayanamsa) 360
  { longitude := sidereal_lon,
    sign_num := pyInt (sidereal_lon / 30) + 1,
    degree := pyMod sidereal_lon 30,
    speed := speed,
    is_retrograde := decide (speed < 0) }

/-- `BaseCalculator.get_all_planets`: the eight ephemeris bodies plus Ketu,
constructed 180 degrees from Rahu with negated speed and `is_retrograde`
hard-coded `True`. -/
def get_all_planets (ephem : Planet → ℚ × ℚ) (ayanamsa : ℚ) : Planet → PlanetEntry :=
  fun p =>
    match p with
    | Planet.Ketu =>
      let rahu := get_planetary_position (ephem Planet.Rahu).1 ayanamsa (ephem Planet.Rahu).2
      let ketu_lon := pyMod (rahu.longitude + 180) 360
      { longitude := ketu_lon,
        sign_num := pyInt (ketu_lon / 30) + 1,
        degree := pyMod ketu_lon 30,
        speed := -rahu.speed,
        is_retrograde := true }
    | p => get_planetary_position (ephem p).1 ayanamsa (ephem p).2

/-- `TransitCalculator.get_current_transits`: per-planet sidereal positions at
the resolved date (the source defaults the `date` argument to
`datetime.now()`; the sampled wall-clock value is the explicit `now`
parameter), Ketu added 180 degrees from Rahu, always retrograde. -/
def get_current_transits (julday : ℚ → ℚ) (ephem : ℚ → Planet → ℚ × ℚ)
    (get_ayanamsa : ℚ → ℚ) (date : Option ℚ) (now : ℚ) : Planet → PlanetEntry :=
  let d := date.getD now
  let jd := julday d
  let ayanamsa := get_ayanamsa jd
  fun p =>
    match p with
    | Planet.Ketu =>
      let rahu := get_planetary_position (ephem jd Planet.Rahu).1 ayanamsa
        (ephem jd Planet.Rahu).2
      let ketu_lon := pyMod (rahu.longitude + 180) 360
      { longitude := ketu_lon,
        sign_num := pyInt (ketu_lon / 30) + 1,
        degree := pyMod ketu_lon 30,
        speed := -rahu.speed,
        is_retrograde := true }
    | p => get_planetary_position (ephem jd p).1 ayanamsa (ephem jd p).2

/-- `KundliCalculator.calculate_all_planets`: the Ketu branch reads the
already-computed Rahu entry (Rahu precedes Ketu in the `PLANETS` dict, so the
`rahu_data` guard always holds); `calculate_planet_position` performs the same
sidereal reduction as `get_planetary_position`. -/
def calculate_all_planets (ephem : Planet → ℚ × ℚ) (ayanamsa : ℚ) :
    Planet → PlanetEntry :=
  fun p =>
    match p with
    | Planet.Ketu =>
      let rahu_data := get_planetary_position (ephem Planet.Rahu).1 ayanamsa
        (ephem Planet.Rahu).2
      let ketu_lon := pyMod (rahu_data.longitude + 180) 360
      { longitude := ketu_lon,
        sign_num := pyInt (ketu_lon / 30) + 1,
        degree := pyMod ketu_lon 30,
        speed := -rahu_data.speed,
        is_retrograde := true }
    | p => get_planetary_position (ephem p).1 ayanamsa (ephem p).2

/-- `TransitCalculator.calculate_transit_from_moon`: house position of a
transiting planet counted from the natal Moon sign. -/
def calculate_transit_from_moon (transit_planet_sign natal_moon_sign : ℤ) : ℤ :=
  (transit_planet_sign - natal_moon_sign) % 12 + 1

/-- Result of `check_sade_sati` (the sign-name echoes, fixed duration string
and the `effects` sub-dictionary are display data and not modelled). -/
structure SadeSatiResult where
  in_sade_sati : Bool
  phase : Option ℤ
  phase_description : String
deriving DecidableEq, Repr

/-- `TransitCalculator.check_sade_sati`: active iff Saturn's sign is the 12th
from the Moon sign (phase 1), the Moon sign itself (phase 2) or the 2nd from
it (phase 3). -/
def check_sade_sati (natal_moon_sign current_saturn_sign : ℤ) : SadeSatiResult :=
  let phase_1 := if 1 < natal_moon_sign then natal_moon_sign - 1 else 12
  let phase_2 := natal_moon_sign
  let phase_3 := natal_moon_sign % 12 + 1
  if current_saturn_sign = phase_1 then
    { in_sade_sati := true, phase := some 1,
      phase_description := "Rising Phase (12th from Moon) - Initial challenges" }
  else if current_saturn_sign = phase_2 then
    { in_sade_sati := true, phase := some 2,
      phase_description := "Peak Phase (on Moon) - Maximum intensity" }
  else if current_saturn_sign = phase_3 then
    { in_sade_sati := true, phase := some 3,
      phase_description := "Setting Phase (2nd from Moon) - Challenges reducing" }
  else
    { in_sade_sati := false, phase := none, phase_description := "" }

/-! ## house_system.py : HouseSystem -/

/-- `HouseSystem.get_planet_house` (Whole Sign): house from the ascendant
sign. -/
def get_planet_house (planet_longitude : ℚ) (ascendant_sign_num : ℤ) : ℤ :=
  let planet_sign := pyInt (planet_longitude / 30) + 1
  (planet_sign - ascendant_sign_num) % 12 + 1

/-- Score accumulation of `analyze_house_strength` for one house: base 50,
kendra +20, trikona +25, dusthana −25, +5 per occupant planet. -/
def strength_score (house_num : ℤ) (num_planets_in_house : ℕ) : ℤ :=
  50 + (if house_num ∈ ([1, 4, 7, 10] : List ℤ) then 20 else 0)
     + (if house_num ∈ ([1, 5, 9] : List ℤ) then 25 else 0)
     - (if house_num ∈ ([6, 8, 12] : List ℤ) then 25 else 0)
     + 5 * (num_planets_in_house : ℤ)

/-- The `strength_score` value stored in the analysis dictionary:
`min(100, max(0, strength_score))`. -/
def stored_strength_score (house_num : ℤ) (num_planets_in_house : ℕ) : ℤ :=
  min 100 (max 0 (strength_score house_num num_planets_in_house))

/-- `HouseSystem._get_strength_level` (the source applies it to the unclamped
score). -/
def get_strength_level (score : ℤ) : String :=
  if 80 ≤ score then "Very Strong"
  else if 60 ≤ score then "Strong"
  else if 40 ≤ score then "Moderate"
  else if 25 ≤ score then "Weak"
  else "Very Weak"

/-! ## divisional_charts.py : DivisionalChartsCalculator

Only the computed `sign_num` of each chart dictionary is modelled; the chart
label, sign name and purpose strings are constants, and `degree`/part-index
echoes are not read back. -/

/-- `while` loop `sign_num -= 12` of `_normalize_sign`. -/
def normDown (n : ℤ) : ℤ :=
  if 12 < n then normDown (n - 12) else n
termination_by (n - 12).toNat
decreasing_by
  simp_wf
  omega

/-- `while` loop `sign_num += 12` of `_normalize_sign`. -/
def normUp (n : ℤ) : ℤ :=
  if n < 1 then normUp (n + 12) else n
termination_by (1 - n).toNat
decreasing_by
  simp_wf
  omega

/-- `DivisionalChartsCalculator._normalize_sign`: repeated ±12 adjustment into
1..12. -/
def normalize_sign (n : ℤ) : ℤ := normUp (normDown n)

theorem normDown_le (n : ℤ) : normDown n ≤ 12 := by
  rw [normDown]
  split_ifs with h
  · exact normDown_le (n - 12)
  · omega
termination_by (n - 12).toNat
decreasing_by
  simp_wf
  omega

theorem one_le_normUp (n : ℤ) : 1 ≤ normUp n := by
  rw [normUp]
  split_ifs with h
  · exact one_le_normUp (n + 12)
  · omega
termination_by (1 - n).toNat
decreasing_by
  simp_wf
  omega

theorem normUp_le (n : ℤ) (hn : n ≤ 12) : normUp n ≤ 12 := by
  rw [normUp]
  split_ifs with h
  · exact normUp_le (n + 12) (by omega)
  · omega
termination_by (1 - n).toNat
decreasing_by
  simp_wf
  omega

theorem normalize_sign_bounds (n : ℤ) : 1 ≤ normalize_sign n ∧ normalize_sign n ≤ 12 :=
  ⟨one_le_normUp _, normUp_le _ (normDown_le n)⟩

/-- `calculate_d1_rasi` (sign only). -/
def calculate_d1_rasi (longitude : ℚ) : ℤ := pyInt (longitude / 30) + 1

/-- `calculate_d2_hora`: odd signs Leo/Cancer, even signs Cancer/Leo. -/
def calculate_d2_hora (longitude : ℚ) : ℤ :=
  let sign_num := pyInt (longitude / 30) + 1
  let degree_in_sign := pyMod longitude 30
  if sign_num % 2 = 1 then (if degree_in_sign < 15 then 5 else 4)
  else (if degree_in_sign < 15 then 4 else 5)

/-- `calculate_d3_drekkana`. -/
def calculate_d3_drekkana (longitude : ℚ) : ℤ :=
  let sign_num := pyInt (longitude / 30) + 1
  let degree_in_sign := pyMod longitude 30
  let decan := pyInt (degree_in_sign / 10) + 1
  normalize_sign (sign_num + (decan - 1) * 4)

/-- `calculate_d4_chaturthamsa`. -/
def calculate_d4_chaturthamsa (longitude : ℚ) : ℤ :=
  let sign_num := pyInt (longitude / 30) + 1
  let degree_in_sign := pyMod longitude 30
  let quarter0 := pyInt (degree_in_sign / 7.5) + 1
  let quarter := if 4 < quarter0 then 4 else quarter0
  normalize_sign (sign_num + (quarter - 1) * 3)

/-- `calculate_d7_saptamsa`. -/
def calculate_d7_saptamsa (longitude : ℚ) : ℤ :=
  let sign_num := pyInt (longitude / 30) + 1
  let degree_in_sign := pyMod longitude 30
  let seventh0 := pyInt (degree_in_sign / (30 / 7)) + 1
  let seventh := if 7 < seventh0 then 7 else seventh0
  if sign_num % 2 = 1 then normalize_sign (sign_num + (seventh - 1))
  else normalize_sign (sign_num + 6 + (seventh - 1))

/-- `calculate_d9_navamsa`: element-group starting signs 1 / 10 / 7 / 4. -/
def calculate_d9_navamsa (longitude : ℚ) : ℤ :=
  let sign_num := pyInt (longitude / 30) + 1
  let degree_in_sign := pyMod longitude 30
  let navamsa0 := pyInt (degree_in_sign / (30 / 9)) + 1
  let navamsa := if 9 < navamsa0 then 9 else navamsa0
  let element_group := (sign_num - 1) % 4
  if element_group = 0 then normalize_sign (1 + (navamsa - 1))
  else if element_group = 1 then normalize_sign (10 + (navamsa - 1))
  else if element_group = 2 then normalize_sign (7 + (navamsa - 1))
  else normalize_sign (4 + (navamsa - 1))

/-- `calculate_d10_dasamsa`. -/
def calculate_d10_dasamsa (longitude : ℚ) : ℤ :=
  let sign_num := pyInt (longitude / 30) + 1
  let degree_in_sign := pyMod longitude 30
  let tenth0 := pyInt (degree_in_sign / 3) + 1
  let tenth := if 10 < tenth0 then 10 else tenth0
  if sign_num % 2 = 1 then normalize_sign (sign_num + (tenth - 1))
  else normalize_sign (sign_num + 8 + (tenth - 1))

/-- `calculate_d12_dwadasamsa`. -/
def calculate_d12_dwadasamsa (longitude : ℚ) : ℤ :=
  let sign_num := pyInt (longitude / 30) + 1
  let degree_in_sign := pyMod longitude 30
  let twelfth0 := pyInt (degree_in_sign / 2.5) + 1
  let twelfth := if 12 < twelfth0 then 12 else twelfth0
  normalize_sign (sign_num + (twelfth - 1))

/-- `calculate_d16_shodasamsa`: movable/fixed/dual starting signs 1 / 5 / 9. -/
def calculate_d16_shodasamsa (longitude : ℚ) : ℤ :=
  let sign_num := pyInt (longitude / 30) + 1
  let degree_in_sign := pyMod longitude 30
  let sixteenth0 := pyInt (degree_in_sign / 1.875) + 1
  let sixteenth := if 16 < sixteenth0 then 16 else sixteenth0
  if sign_num ∈ ([1, 4, 7, 10] : List ℤ) then normalize_sign (1 + (sixteenth - 1))
  else if sign_num ∈ ([2, 5, 8, 11] : List ℤ) then normalize_sign (5 + (sixteenth - 1))
  else normalize_sign (9 + (sixteenth - 1))

/-- `calculate_d20_vimsamsa`: movable/fixed/dual starting signs 1 / 9 / 5. -/
def calculate_d20_vimsamsa (longitude : ℚ) : ℤ :=
  let sign_num := pyInt (longitude / 30) + 1
  let degree_in_sign := pyMod longitude 30
  let twentieth0 := pyInt (degree_in_sign / 1.5) + 1
  let twentieth := if 20 < twentieth0 then 20 else twentieth0
  if sign_num ∈ ([1, 4, 7, 10] : List ℤ) then normalize_sign (1 + (twentieth - 1))
  else if sign_num ∈ ([2, 5, 8, 11] : List ℤ) then normalize_sign (9 + (twentieth - 1))
  else normalize_sign (5 + (twentieth - 1))

/-- `calculate_d24_chaturvimsamsa`: odd signs from Leo (5), even from Cancer
(4). -/
def calculate_d24_chaturvimsamsa (longitude : ℚ) : ℤ :=
  let sign_num := pyInt (longitude / 30) + 1
  let degree_in_sign := pyMod longitude 30
  let twentyfourth0 := pyInt (degree_in_sign / 1.25) + 1
  let twentyfourth := if 24 < twentyfourth0 then 24 else twentyfourth0
  if sign_num % 2 = 1 then normalize_sign (5 + (twentyfourth - 1))
  else normalize_sign (4 + (twentyfourth - 1))

/-- `calculate_d27_nakshatramsa`: element-group starting signs 1 / 4 / 7 / 10. -/
def calculate_d27_nakshatramsa (longitude : ℚ) : ℤ :=
  let sign_num := pyInt (longitude / 30) + 1
  let degree_in_sign := pyMod longitude 30
  let part0 := pyInt (degree_in_sign / (30 / 27)) + 1
  let part := if 27 < part0 then 27 else part0
  if sign_num ∈ ([1, 5, 9] : List ℤ) then normalize_sign (1 + (part - 1))
  else if sign_num ∈ ([2, 6, 10] : List ℤ) then normalize_sign (4 + (part - 1))
  else if sign_num ∈ ([3, 7, 11] : List ℤ) then normalize_sign (7 + (part - 1))
  else normalize_sign (10 + (part - 1))

/-- `calculate_d30_trimsamsa`: unequal degree bands, different for odd and
even signs. -/
def calculate_d30_trimsamsa (longitude : ℚ) : ℤ :=
  let sign_num := pyInt (longitude / 30) + 1
  let degree_in_sign := pyMod longitude 30
  let degree_int := pyInt degree_in_sign
  if sign_num % 2 = 1 then
    if degree_int < 5 then normalize_sign sign_num
    else if degree_int < 10 then normalize_sign (sign_num + 10)
    else if degree_int < 18 then normalize_sign (sign_num + 8)
    else if degree_int < 25 then normalize_sign (sign_num + 6)
    else normalize_sign (sign_num + 4)
  else
    if degree_int < 5 then normalize_sign (sign_num + 4)
    else if degree_int < 12 then normalize_sign (sign_num + 6)
    else if degree_int < 20 then normalize_sign (sign_num + 8)
    else if degree_int < 25 then normalize_sign (sign_num + 10)
    else normalize_sign sign_num

/-- `calculate_d40_khavedamsa`: movable/fixed/dual starting signs 1 / 5 / 9. -/
def calculate_d40_khavedamsa (longitude : ℚ) : ℤ :=
  let sign_num := pyInt (longitude / 30) + 1
  let degree_in_sign := pyMod longitude 30
  let fortieth0 := pyInt (degree_in_sign / 0.75) + 1
  let fortieth := if 40 < fortieth0 then 40 else fortieth0
  if sign_num ∈ ([1, 4, 7, 10] : List ℤ) then normalize_sign (1 + (fortieth - 1))
  else if sign_num ∈ ([2, 5, 8, 11] : List ℤ) then normalize_sign (5 + (fortieth - 1))
  else normalize_sign (9 + (fortieth - 1))

/-- `calculate_d45_akshavedamsa`. -/
def calculate_d45_akshavedamsa (longitude : ℚ) : ℤ :=
  let sign_num := pyInt (longitude / 30) + 1
  let degree_in_sign := pyMod longitude 30
  let part0 := pyInt (degree_in_sign / (30 / 45)) + 1
  let part := if 45 < part0 then 45 else part0
  normalize_sign (sign_num + (part - 1))

/-- `calculate_d60_shashtiamsa`. -/
def calculate_d60_shashtiamsa (longitude : ℚ) : ℤ :=
  let sign_num := pyInt (longitude / 30) + 1
  let degree_in_sign := pyMod longitude 30
  let sixtieth0 := pyInt (degree_in_sign / 0.5) + 1
  let sixtieth := if 60 < sixtieth0 then 60 else sixtieth0
  normalize_sign (sign_num + (sixtieth - 1))

/-- `calculate_all_divisional_charts`: the 16 computed sign numbers, in the
source dictionary's order D1, D2, D3, D4, D7, D9, D10, D12, D16, D20, D24,
D27, D30, D40, D45, D60. -/
def calculate_all_divisional_charts (longitude : ℚ) : List ℤ :=
  [calculate_d1_rasi longitude,
   calculate_d2_hora longitude,
   calculate_d3_drekkana longitude,
   calculate_d4_chaturthamsa longitude,
   calculate_d7_saptamsa longitude,
   calculate_d9_navamsa longitude,
   calculate_d10_dasamsa longitude,
   calculate_d12_dwadasamsa longitude,
   calculate_d16_shodasamsa longitude,
   calculate_d20_vimsamsa longitude,
   calculate_d24_chaturvimsamsa longitude,
   calculate_d27_nakshatramsa longitude,
   calculate_d30_trimsamsa longitude,
   calculate_d40_khavedamsa longitude,
   calculate_d45_akshavedamsa longitude,
   calculate_d60_shashtiamsa longitude]

/-! ## Translation equivariance

Every date stored by the dasha engine is an integer number of days added to
the birth datetime and then floored; shifting the birth datetime by a whole
number of days shifts every generated and returned date by the same amount,
and the fractional (time-of-day) part of the birth datetime is irrelevant.
These lemmas reduce statements about arbitrary birth datetimes to concrete
computations with birth at day 0. -/

def shiftMaha (t : ℤ) (m : Mahadasha) : Mahadasha :=
  { m with start_date := m.start_date + t, end_date := m.end_date + t }

def shiftAntar (t : ℤ) (a : Antardasha) : Antardasha :=
  { a with start_date := a.start_date + t, end_date := a.end_date + t }

def shiftPrat (t : ℤ) (p : Pratyantardasha) : Pratyantardasha :=
  { p with start_date := p.start_date + t, end_date := p.end_date + t }

def shiftCurrent (t : ℤ) (r : CurrentDasha) : CurrentDasha :=
  { mahadasha := shiftMaha t r.mahadasha, antardasha := shiftAntar t r.antardasha,
    pratyantardasha := r.pratyantardasha.map (shiftPrat t),
    current_date := r.current_date + t }

theorem shiftMaha_lord (t : ℤ) (m : Mahadasha) : (shiftMaha t m).lord = m.lord := rfl

theorem shiftMaha_start (t : ℤ) (m : Mahadasha) :
    (shiftMaha t m).start_date = m.start_date + t := rfl

theorem shiftMaha_end (t : ℤ) (m : Mahadasha) :
    (shiftMaha t m).end_date = m.end_date + t := rfl

theorem shiftAntar_alord (t : ℤ) (a : Antardasha) :
    (shiftAntar t a).antardasha_lord = a.antardasha_lord := rfl

theorem shiftAntar_start (t : ℤ) (a : Antardasha) :
    (shiftAntar t a).start_date = a.start_date + t := rfl

theorem shiftAntar_end (t : ℤ) (a : Antardasha) :
    (shiftAntar t a).end_date = a.end_date + t := rfl

theorem mahaSeqAux_add_int (si : ℕ) (t : ℤ) :
    ∀ (k i : ℕ) (c : ℚ),
      mahaSeqAux si (c + (t : ℚ)) i k = (mahaSeqAux si c i k).map (shiftMaha t) := by
  intro k
  induction k with
  | zero => intro i c; rfl
  | succ k ih =>
    intro i c
    simp only [mahaSeqAux, List.map_cons]
    refine congrArg₂ List.cons ?_ ?_
    · simp only [shiftMaha]
      refine congrArg₂ (fun s e => Mahadasha.mk _ s e _) ?_ ?_
      · exact Int.floor_add_int c t
      · rw [add_right_comm]
        exact Int.floor_add_int _ t
    · rw [add_right_comm]
      exact ih (i + 1) _

theorem mahaSeqAux_fract (si : ℕ) :
    ∀ (k i : ℕ) (f : ℚ), 0 ≤ f → f < 1 →
      mahaSeqAux si f i k = mahaSeqAux si 0 i k := by
  intro k
  induction k with
  | zero => intro i f _ _; rfl
  | succ k ih =>
    intro i f h0 h1
    have hf : Int.floor f = 0 := Int.floor_eq_zero_iff.mpr ⟨h0, h1⟩
    simp only [mahaSeqAux]
    set d : ℤ := pyInt ((DASHA_YEARS (lordAt ((si + i) % 9)) : ℚ) * 365.25) with hd
    refine congrArg₂ List.cons ?_ ?_
    · refine congrArg₂ (fun s e => Mahadasha.mk _ s e _) ?_ ?_
      · rw [hf, Int.floor_zero]
      · rw [Int.floor_add_int, Int.floor_add_int, hf, Int.floor_zero]
    · have l1 := mahaSeqAux_add_int si d k (i + 1) f
      have l2 := mahaSeqAux_add_int si d k (i + 1) (0 : ℚ)
      rw [l1, l2, ih (i + 1) f h0 h1]

theorem calculate_mahadasha_sequence_shift (L : Lord) (b : ℚ) (n : ℕ) :
    calculate_mahadasha_sequence L b n =
      (calculate_mahadasha_sequence L 0 n).map (shiftMaha (Int.floor b)) := by
  unfold calculate_mahadasha_sequence
  have h : b = Int.fract b + ((Int.floor b : ℤ) : ℚ) := by
    rw [Int.fract]; ring
  conv_lhs => rw [h]
  rw [mahaSeqAux_add_int,
    mahaSeqAux_fract _ _ _ _ (Int.fract_nonneg b) (Int.fract_lt_one b)]

theorem antarAux_add_int (L : Lord) (si : ℕ) (t : ℤ) :
    ∀ (k i : ℕ) (e c : ℚ),
      antarAux L (e + (t : ℚ)) si (c + (t : ℚ)) i k =
        (antarAux L e si c i k).map (shiftAntar t) := by
  intro k
  induction k with
  | zero => intro i e c; rfl
  | succ k ih =>
    intro i e c
    simp only [antarAux]
    set d : ℤ := pyInt
      (((DASHA_YEARS L : ℚ) * (DASHA_YEARS (lordAt ((si + i) % 9)) : ℚ)) / 120 * 365.25)
      with hd
    have harg : c + (t : ℚ) + (d : ℚ) = (c + (d : ℚ)) + (t : ℚ) := by ring
    have hcond : (e + (t : ℚ) < c + (t : ℚ) + (d : ℚ)) ↔ (e < c + (d : ℚ)) := by
      rw [harg]
      exact add_lt_add_iff_right _
    have hE : (if e + (t : ℚ) < c + (t : ℚ) + (d : ℚ) then e + (t : ℚ)
        else c + (t : ℚ) + (d : ℚ)) =
        (if e < c + (d : ℚ) then e else c + (d : ℚ)) + (t : ℚ) := by
      rw [harg]
      split_ifs with h1 h2 h2
      · rfl
      · exact absurd (hcond.mp (harg ▸ h1)) h2
      · exact absurd (harg ▸ hcond.mpr h2) h1
      · rfl
    rw [hE]
    set E : ℚ := if e < c + (d : ℚ) then e else c + (d : ℚ) with hEdef
    have hbreak : (e + (t : ℚ) ≤ E + (t : ℚ)) ↔ (e ≤ E) := add_le_add_iff_right _
    have hentry :
        (⟨L, lordAt ((si + i) % 9), Int.floor (c + (t : ℚ)),
          Int.floor (E + (t : ℚ))⟩ : Antardasha) =
        shiftAntar t ⟨L, lordAt ((si + i) % 9), Int.floor c, Int.floor E⟩ := by
      simp only [shiftAntar]
      refine congrArg₂ (fun s e => Antardasha.mk _ _ s e) ?_ ?_
      · exact Int.floor_add_int c t
      · exact Int.floor_add_int E t
    by_cases hb : e ≤ E
    · rw [if_pos (hbreak.mpr hb), if_pos hb]
      simp only [List.map_cons, List.map_nil]
      rw [hentry]
    · rw [if_neg (fun h => hb (hbreak.mp h)), if_neg hb]
      simp only [List.map_cons]
      rw [hentry, ih (i + 1) e E]

theorem calculate_antardasha_shift (L : Lord) (t : ℤ) (s e : ℚ) :
    calculate_antardasha L (s + (t : ℚ)) (e + (t : ℚ)) =
      (calculate_antardasha L s e).map (shiftAntar t) := by
  unfold calculate_antardasha
  exact antarAux_add_int L (lordIndex L) t 9 0 e s

theorem pratAux_add_int (L A : Lord) (si : ℕ) (t : ℤ) :
    ∀ (k i : ℕ) (e c : ℚ),
      pratAux L A (e + (t : ℚ)) si (c + (t : ℚ)) i k =
        (pratAux L A e si c i k).map (shiftPrat t) := by
  intro k
  induction k with
  | zero => intro i e c; rfl
  | succ k ih =>
    intro i e c
    simp only [pratAux]
    set d : ℤ := pyInt
      (((DASHA_YEARS L : ℚ) * (DASHA_YEARS A : ℚ) *
        (DASHA_YEARS (lordAt ((si + i) % 9)) : ℚ)) / (120 * 120) * 365.25)
      with hd
    have harg : c + (t : ℚ) + (d : ℚ) = (c + (d : ℚ)) + (t : ℚ) := by ring
    have hcond : (e + (t : ℚ) < c + (t : ℚ) + (d : ℚ)) ↔ (e < c + (d : ℚ)) := by
      rw [harg]
      exact add_lt_add_iff_right _
    have hE : (if e + (t : ℚ) < c + (t : ℚ) + (d : ℚ) then e + (t : ℚ)
        else c + (t : ℚ) + (d : ℚ)) =
        (if e < c + (d : ℚ) then e else c + (d : ℚ)) + (t : ℚ) := by
      rw [harg]
      split_ifs with h1 h2 h2
      · rfl
      · exact absurd (hcond.mp (harg ▸ h1)) h2
      · exact absurd (harg ▸ hcond.mpr h2) h1
      · rfl
    rw [hE]
    set E : ℚ := if e < c + (d : ℚ) then e else c + (d : ℚ) with hEdef
    have hbreak : (e + (t : ℚ) ≤ E + (t : ℚ)) ↔ (e ≤ E) := add_le_add_iff_right _
    have hdur : E + (t : ℚ) - (c + (t : ℚ)) = E - c := by ring
    have hentry :
        (⟨L, A, lordAt ((si + i) % 9), Int.floor (c + (t : ℚ)),
          Int.floor (E + (t : ℚ)), Int.floor (E + (t : ℚ) - (c + (t : ℚ)))⟩ :
            Pratyantardasha) =
        shiftPrat t ⟨L, A, lordAt ((si + i) % 9), Int.floor c, Int.floor E,
          Int.floor (E - c)⟩ := by
      simp only [shiftPrat]
      rw [hdur, Int.floor_add_int c t, Int.floor_add_int E t]
    by_cases hb : e ≤ E
    · rw [if_pos (hbreak.mpr hb), if_pos hb]
      simp only [List.map_cons, List.map_nil]
      rw [hentry]
    · rw [if_neg (fun h => hb (hbreak.mp h)), if_neg hb]
      simp only [List.map_cons]
      rw [hentry, ih (i + 1) e E]

theorem calculate_pratyantardasha_shift (L A : Lord) (t : ℤ) (s e : ℚ) :
    calculate_pratyantardasha L A (s + (t : ℚ)) (e + (t : ℚ)) =
      (calculate_pratyantardasha L A s e).map (shiftPrat t) := by
  unfold calculate_pratyantardasha
  exact pratAux_add_int L A (lordIndex A) t 9 0 e s

theorem findPratyantar_shift (t : ℤ) (q : ℚ) :
    ∀ ps : List Pratyantardasha,
      findPratyantar (q + (t : ℚ)) (ps.map (shiftPrat t)) =
        (findPratyantar q ps).map (shiftPrat t) := by
  intro ps
  induction ps with
  | nil => rfl
  | cons p rest ih =>
    simp only [List.map_cons, findPratyantar, shiftPrat]
    have h1 : (((p.start_date + t : ℤ) : ℚ) ≤ q + (t : ℚ)) ↔ ((p.start_date : ℚ) ≤ q) := by
      push_cast
      exact add_le_add_iff_right _
    have h2 : (q + (t : ℚ) ≤ ((p.end_date + t : ℤ) : ℚ)) ↔ (q ≤ (p.end_date : ℚ)) := by
      push_cast
      exact add_le_add_iff_right _
    by_cases hc : (p.start_date : ℚ) ≤ q ∧ q ≤ (p.end_date : ℚ)
    · rw [if_pos ⟨h1.mpr hc.1, h2.mpr hc.2⟩, if_pos hc]
      rfl
    · rw [if_neg (fun h => hc ⟨h1.mp h.1, h2.mp h.2⟩), if_neg hc]
      exact ih

theorem findAntar_shift (t : ℤ) (q : ℚ) (m : Mahadasha) :
    ∀ as : List Antardasha,
      findAntar (shiftMaha t m) (q + (t : ℚ)) (as.map (shiftAntar t)) =
        (findAntar m q as).map (shiftCurrent t) := by
  intro as
  induction as with
  | nil => rfl
  | cons a rest ih =>
    simp only [List.map_cons, findAntar, shiftAntar_alord, shiftAntar_start, shiftAntar_end,
      shiftMaha_lord]
    have h1 : (((a.start_date + t : ℤ) : ℚ) ≤ q + (t : ℚ)) ↔ ((a.start_date : ℚ) ≤ q) := by
      push_cast
      exact add_le_add_iff_right _
    have h2 : (q + (t : ℚ) ≤ ((a.end_date + t : ℤ) : ℚ)) ↔ (q ≤ (a.end_date : ℚ)) := by
      push_cast
      exact add_le_add_iff_right _
    by_cases hc : (a.start_date : ℚ) ≤ q ∧ q ≤ (a.end_date : ℚ)
    · rw [if_pos ⟨h1.mpr hc.1, h2.mpr hc.2⟩, if_pos hc]
      have hprat : calculate_pratyantardasha m.lord a.antardasha_lord
          ((a.start_date + t : ℤ) : ℚ) ((a.end_date + t : ℤ) : ℚ) =
          (calculate_pratyantardasha m.lord a.antardasha_lord
            (a.start_date : ℚ) (a.end_date : ℚ)).map (shiftPrat t) := by
        have hs : ((a.start_date + t : ℤ) : ℚ) = (a.start_date : ℚ) + (t : ℚ) := by
          push_cast; ring
        have he : ((a.end_date + t : ℤ) : ℚ) = (a.end_date : ℚ) + (t : ℚ) := by
          push_cast; ring
        rw [hs, he]
        exact calculate_pratyantardasha_shift _ _ t _ _
      rw [hprat, findPratyantar_shift t q, Int.floor_add_int q t]
      rfl
    · rw [if_neg (fun h => hc ⟨h1.mp h.1, h2.mp h.2⟩), if_neg hc]
      exact ih

theorem scanMahas_shift (t : ℤ) (q : ℚ) :
    ∀ l : List Mahadasha,
      scanMahas (q + (t : ℚ)) (l.map (shiftMaha t)) =
        (scanMahas q l).map (shiftCurrent t) := by
  intro l
  induction l with
  | nil => rfl
  | cons m rest ih =>
    simp only [List.map_cons, scanMahas, shiftMaha_lord, shiftMaha_start, shiftMaha_end]
    have h1 : (((m.start_date + t : ℤ) : ℚ) ≤ q + (t : ℚ)) ↔ ((m.start_date : ℚ) ≤ q) := by
      push_cast
      exact add_le_add_iff_right _
    have h2 : (q + (t : ℚ) ≤ ((m.end_date + t : ℤ) : ℚ)) ↔ (q ≤ (m.end_date : ℚ)) := by
      push_cast
      exact add_le_add_iff_right _
    by_cases hc : (m.start_date : ℚ) ≤ q ∧ q ≤ (m.end_date : ℚ)
    · rw [if_pos ⟨h1.mpr hc.1, h2.mpr hc.2⟩, if_pos hc]
      have hantar : calculate_antardasha m.lord
          ((m.start_date + t : ℤ) : ℚ) ((m.end_date + t : ℤ) : ℚ) =
          (calculate_antardasha m.lord (m.start_date : ℚ) (m.end_date : ℚ)).map
            (shiftAntar t) := by
        have hs : ((m.start_date + t : ℤ) : ℚ) = (m.start_date : ℚ) + (t : ℚ) := by
          push_cast; ring
        have he : ((m.end_date + t : ℤ) : ℚ) = (m.end_date : ℚ) + (t : ℚ) := by
          push_cast; ring
        rw [hs, he]
        exact calculate_antardasha_shift _ t _ _
      rw [hantar, findAntar_shift t q m]
      cases findAntar m q (calculate_antardasha m.lord (m.start_date : ℚ) (m.end_date : ℚ)) with
      | none => simpa using ih
      | some r => rfl
    · rw [if_neg (fun h => hc ⟨h1.mp h.1, h2.mp h.2⟩), if_neg hc]
      exact ih

theorem get_current_dasha_shift (moon b q now : ℚ) :
    get_current_dasha moon b (some (q + ((Int.floor b : ℤ) : ℚ))) now =
      (scanMahas q
        (calculate_mahadasha_sequence (get_birth_dasha_lord moon) 0 9)).map
        (shiftCurrent (Int.floor b)) := by
  unfold get_current_dasha
  simp only [Option.getD_some]
  rw [show (calculate_balance_dasha moon b).dasha_lord = get_birth_dasha_lord moon from rfl,
    calculate_mahadasha_sequence_shift, scanMahas_shift]

/-! ## Helpers for settling dasha claims -/

/-- Boolean adjacency check (`g`-field of each element equals the `f`-field of
its successor); decidable stand-in for `List.Chain'`. -/
def chainEqB {α : Type} (f g : α → ℤ) : List α → Bool
  | a :: b :: rest => (g a == f b) && chainEqB f g (b :: rest)
  | _ => true

theorem chainEqB_iff {α : Type} (f g : α → ℤ) :
    ∀ l : List α, chainEqB f g l = true ↔ List.Chain' (fun a b => g a = f b) l
  | [] => by simp [chainEqB]
  | [a] => by simp [chainEqB]
  | a :: b :: rest => by
    rw [List.chain'_cons, ← chainEqB_iff f g (b :: rest)]
    simp [chainEqB]

theorem scanMahas_eq_none (q : ℚ) :
    ∀ l : List Mahadasha,
      (∀ m ∈ l, ¬((m.start_date : ℚ) ≤ q ∧ q ≤ (m.end_date : ℚ))) →
      scanMahas q l = none := by
  intro l
  induction l with
  | nil => intro _; rfl
  | cons m rest ih =>
    intro h
    simp only [scanMahas]
    rw [if_neg (h m (List.mem_cons_self m rest))]
    exact ih fun x hx => h x (List.mem_cons_of_mem m hx)

theorem findAntar_isSome (m : Mahadasha) (q : ℚ) :
    ∀ as : List Antardasha,
      (∃ a ∈ as, (a.start_date : ℚ) ≤ q ∧ q ≤ (a.end_date : ℚ)) →
      ∃ r, findAntar m q as = some r := by
  intro as
  induction as with
  | nil =>
    rintro ⟨a, ha, -⟩
    exact absurd ha (List.not_mem_nil a)
  | cons a rest ih =>
    rintro ⟨b, hb, hcond⟩
    simp only [findAntar]
    by_cases hc : (a.start_date : ℚ) ≤ q ∧ q ≤ (a.end_date : ℚ)
    · rw [if_pos hc]
      exact ⟨_, rfl⟩
    · rw [if_neg hc]
      rcases List.mem_cons.mp hb with h | h
      · exact absurd (h ▸ hcond) hc
      · exact ih ⟨b, h, hcond⟩

theorem scanMahas_isSome (q : ℚ) :
    ∀ l : List Mahadasha,
      (∃ m ∈ l, ((m.start_date : ℚ) ≤ q ∧ q ≤ (m.end_date : ℚ)) ∧
        ∃ a ∈ calculate_antardasha m.lord (m.start_date : ℚ) (m.end_date : ℚ),
          (a.start_date : ℚ) ≤ q ∧ q ≤ (a.end_date : ℚ)) →
      ∃ r, scanMahas q l = some r := by
  intro l
  induction l with
  | nil =>
    rintro ⟨m, hm, -⟩
    exact absurd hm (List.not_mem_nil m)
  | cons m rest ih =>
    rintro ⟨b, hb, hbcond, hbantar⟩
    simp only [scanMahas]
    by_cases hc : (m.start_date : ℚ) ≤ q ∧ q ≤ (m.end_date : ℚ)
    · rw [if_pos hc]
      rcases hfa : findAntar m q
        (calculate_antardasha m.lord (m.start_date : ℚ) (m.end_date : ℚ)) with - | r
      · rcases List.mem_cons.mp hb with h | h
        · subst h
          rcases findAntar_isSome b q _ hbantar with ⟨r, hr⟩
          rw [hfa] at hr
          exact absurd hr (by simp)
        · simpa [hfa] using ih ⟨b, h, hbcond, hbantar⟩
      · exact ⟨r, by simp [hfa]⟩
    · rw [if_neg hc]
      rcases List.mem_cons.mp hb with h | h
      · exact absurd (h ▸ hbcond) hc
      · exact ih ⟨b, h, hbcond, hbantar⟩

theorem balance_lord_eq (moon birth : ℚ) :
    (calculate_balance_dasha moon birth).dasha_lord = get_birth_dasha_lord moon := rfl

/-- `findPratyantar` returns the first containing Pratyantardasha: it occurs
at some position `j`, contains the query, and every position before `j` does
not contain the query. -/
theorem findPratyantar_first (q : ℚ) :
    ∀ (ps : List Pratyantardasha) (p : Pratyantardasha), findPratyantar q ps = some p →
      ∃ j : ℕ, ps[j]? = some p
        ∧ ((p.start_date : ℚ) ≤ q ∧ q ≤ (p.end_date : ℚ))
        ∧ ∀ k, k < j → ∀ x, ps[k]? = some x →
            ¬((x.start_date : ℚ) ≤ q ∧ q ≤ (x.end_date : ℚ)) := by
  intro ps
  induction ps with
  | nil => intro p h; cases h
  | cons a rest ih =>
    intro p h
    simp only [findPratyantar] at h
    by_cases hc : (a.start_date : ℚ) ≤ q ∧ q ≤ (a.end_date : ℚ)
    · rw [if_pos hc] at h
      injection h with h
      subst h
      exact ⟨0, by simp, hc, fun k hk => absurd hk (Nat.not_lt_zero k)⟩
    · rw [if_neg hc] at h
      rcases ih p h with ⟨j, hj, hpc, hearl⟩
      refine ⟨j + 1, by simpa using hj, hpc, ?_⟩
      intro k hk x hx
      cases k with
      | zero =>
        simp only [List.getElem?_cons_zero] at hx
        injection hx with hx
        subst hx
        exact hc
      | succ kk =>
        refine hearl kk (by omega) x ?_
        simpa using hx

/-- `findAntar` returns the first containing Antardasha of the list: the
result's `mahadasha` is the scanned Mahadasha, its `antardasha` occurs at
some position `j` and contains the query, every earlier position does not
contain the query, and its `pratyantardasha` is the `findPratyantar` result
over the Pratyantardashas generated from that Antardasha. -/
theorem findAntar_first (m : Mahadasha) (q : ℚ) :
    ∀ (as : List Antardasha) (r : CurrentDasha), findAntar m q as = some r →
      r.mahadasha = m
      ∧ ∃ j : ℕ, as[j]? = some r.antardasha
          ∧ ((r.antardasha.start_date : ℚ) ≤ q ∧ q ≤ (r.antardasha.end_date : ℚ))
          ∧ (∀ k, k < j → ∀ a, as[k]? = some a →
              ¬((a.start_date : ℚ) ≤ q ∧ q ≤ (a.end_date : ℚ)))
          ∧ r.pratyantardasha = findPratyantar q (calculate_pratyantardasha m.lord
              r.antardasha.antardasha_lord (r.antardasha.start_date : ℚ)
              (r.antardasha.end_date : ℚ)) := by
  intro as
  induction as with
  | nil => intro r h; cases h
  | cons a rest ih =>
    intro r h
    simp only [findAntar] at h
    by_cases hc : (a.start_date : ℚ) ≤ q ∧ q ≤ (a.end_date : ℚ)
    · rw [if_pos hc] at h
      injection h with h
      subst h
      exact ⟨rfl, 0, by simp, hc, fun k hk => absurd hk (Nat.not_lt_zero k), rfl⟩
    · rw [if_neg hc] at h
      rcases ih r h with ⟨hm, j, hj, hac, hearl, hprat⟩
      refine ⟨hm, j + 1, by simpa using hj, hac, ?_, hprat⟩
      intro k hk x hx
      cases k with
      | zero =>
        simp only [List.getElem?_cons_zero] at hx
        injection hx with hx
        subst hx
        exact hc
      | succ kk =>
        refine hearl kk (by omega) x ?_
        simpa using hx

/-- Every result of the Mahadasha scan comes from a Mahadasha whose closed
interval contains the query, through `findAntar` over that Mahadasha's
generated Antardashas. -/
theorem scanMahas_result (q : ℚ) :
    ∀ (l : List Mahadasha) (r : CurrentDasha), scanMahas q l = some r →
      ((r.mahadasha.start_date : ℚ) ≤ q ∧ q ≤ (r.mahadasha.end_date : ℚ))
      ∧ findAntar r.mahadasha q (calculate_antardasha r.mahadasha.lord
          (r.mahadasha.start_date : ℚ) (r.mahadasha.end_date : ℚ)) = some r := by
  intro l
  induction l with
  | nil => intro r h; cases h
  | cons m rest ih =>
    intro r h
    simp only [scanMahas] at h
    by_cases hc : (m.start_date : ℚ) ≤ q ∧ q ≤ (m.end_date : ℚ)
    · rw [if_pos hc] at h
      rcases hfa : findAntar m q (calculate_antardasha m.lord (m.start_date : ℚ)
          (m.end_date : ℚ)) with - | ri
      · rw [hfa] at h
        exact ih r h
      · rw [hfa] at h
        injection h with h
        subst h
        have hm : ri.mahadasha = m := (findAntar_first m q _ ri hfa).1
        rw [hm]
        exact ⟨hc, hm ▸ hfa⟩
    · rw [if_neg hc] at h
      exact ih r h

/-- For every starting lord, every Mahadasha of the birth-at-0 sequence lies
inside day interval 0..43826 (43826 is the exact total of the 9 floored
year-lengths). -/
theorem base_seq_bounds (L : Lord) :
    ∀ m ∈ calculate_mahadasha_sequence L 0 9, 0 ≤ m.start_date ∧ m.end_date ≤ 43826 := by
  cases L <;> decide

/-! ## Claims about the dasha engine -/

/-- Claim C1 (code bug evidence).  At Moon longitude 32.8 the birth nakshatra
is Krittika with lord Sun and balance 0.54, so the balance-reduced first
Mahadasha would last `int(6 * 0.54 * 365.25) = 1183` days — the very value
`calculate_balance_dasha` computes and both `generate_complete_dasha_timeline`
and `get_current_dasha` then discard: the first Mahadasha of the sequence they
actually use spans the full `int(6 * 365.25) = 2191` days. -/
theorem C1_first_mahadasha_full_years :
    ((generate_complete_dasha_timeline 32.8 0 30).timeline.head?.map
      fun e => e.mahadasha.end_date - e.mahadasha.start_date) = some 2191
    ∧ (generate_complete_dasha_timeline 32.8 0 30).birth_dasha_lord = Lord.Sun
    ∧ (generate_complete_dasha_timeline 32.8 0 30).balance_at_birth_years = 3.24
    ∧ pyInt ((generate_complete_dasha_timeline 32.8 0 30).balance_at_birth_years * 365.25)
        = 1183
    ∧ ((get_current_dasha 32.8 0 (some 0) 0).map
        fun r => r.mahadasha.end_date - r.mahadasha.start_date) = some 2191
    ∧ (2191 : ℤ) ≠ 1183 := by
  refine ⟨by decide, by decide, by decide, by decide, by decide, by decide⟩

/-- Claim C2 (counterexample).  Moon longitude 0, birth at day 0: day 2554 is
inside the first (Ketu) Mahadasha `0..2556` and inside the 9-Mahadasha horizon
`0..43826`, yet `get_current_dasha` returns `None`, because the Ketu
Mahadasha's floored Antardashas only cover days `0..2553`. -/
theorem C2_in_horizon_gap_returns_none :
    get_current_dasha 0 0 (some 2554) 0 = none
    ∧ ((calculate_mahadasha_sequence (get_birth_dasha_lord 0) 0 9).head?.map
        fun m => (m.start_date, m.end_date)) = some ((0 : ℤ), (2556 : ℤ))
    ∧ ((0 : ℚ) ≤ 2554 ∧ (2554 : ℚ) ≤ 43826) := by
  refine ⟨by decide, by decide, by decide, by decide⟩

/-- Claim C2 (amended).  `get_current_dasha` returns `None` whenever the query
datetime precedes the midnight of the birth day or lies beyond the end of the
9th Mahadasha (day `floor birth + 43826`), and returns a result whenever some
generated Mahadasha interval contains the query together with one of that
Mahadasha's generated Antardashas; queries inside a Mahadasha but beyond its
last Antardasha's end (the flooring gap) can yield `None` although they are
inside the horizon. -/
theorem C2_lookup_horizon (moon birth q now : ℚ) (h1 : 0 ≤ moon) (h2 : moon < 360) :
    (q < ((Int.floor birth : ℤ) : ℚ) →
      get_current_dasha moon birth (some q) now = none)
    ∧ (((Int.floor birth : ℤ) : ℚ) + 43826 < q →
      get_current_dasha moon birth (some q) now = none)
    ∧ ((∃ m ∈ calculate_mahadasha_sequence (get_birth_dasha_lord moon) birth 9,
          ((m.start_date : ℚ) ≤ q ∧ q ≤ (m.end_date : ℚ)) ∧
          ∃ a ∈ calculate_antardasha m.lord (m.start_date : ℚ) (m.end_date : ℚ),
            (a.start_date : ℚ) ≤ q ∧ q ≤ (a.end_date : ℚ)) →
      ∃ r, get_current_dasha moon birth (some q) now = some r) := by
  refine ⟨?_, ?_, ?_⟩
  · intro hq
    unfold get_current_dasha
    simp only [Option.getD_some]
    rw [balance_lord_eq]
    apply scanMahas_eq_none
    intro m hm
    rw [calculate_mahadasha_sequence_shift] at hm
    rcases List.mem_map.mp hm with ⟨m0, hm0, rfl⟩
    rcases base_seq_bounds (get_birth_dasha_lord moon) m0 hm0 with ⟨hlo, -⟩
    rintro ⟨hs, -⟩
    rw [shiftMaha_start] at hs
    push_cast at hs
    have : (0 : ℚ) ≤ (m0.start_date : ℚ) := by exact_mod_cast hlo
    linarith
  · intro hq
    unfold get_current_dasha
    simp only [Option.getD_some]
    rw [balance_lord_eq]
    apply scanMahas_eq_none
    intro m hm
    rw [calculate_mahadasha_sequence_shift] at hm
    rcases List.mem_map.mp hm with ⟨m0, hm0, rfl⟩
    rcases base_seq_bounds (get_birth_dasha_lord moon) m0 hm0 with ⟨-, hhi⟩
    rintro ⟨-, he⟩
    rw [shiftMaha_end] at he
    push_cast at he
    have : (m0.end_date : ℚ) ≤ 43826 := by exact_mod_cast hhi
    linarith
  · intro h
    unfold get_current_dasha
    simp only [Option.getD_some]
    rw [balance_lord_eq]
    exact scanMahas_isSome q _ h

/-- Claim C2 witness: the amended theorem applied at concrete inputs. -/
theorem C2_lookup_horizon_witness :
    (0 : ℚ) ≤ 0 ∧ (0 : ℚ) < 360 ∧ (-1 : ℚ) < ((Int.floor (0 : ℚ) : ℤ) : ℚ) ∧
      get_current_dasha 0 0 (some (-1)) 0 = none :=
  ⟨by decide, by decide, by decide,
    (C2_lookup_horizon 0 0 (-1) 0 (by decide) (by decide)).1 (by decide)⟩

/-- Claim C3 (counterexample).  A Ketu Mahadasha of the standard
`int(7 * 365.25) = 2556` days (`0..2556`): its 9 generated Antardashas'
durations sum to 2553 days, not to the parent's 2556 — the last Antardasha
ends 3 days short of the parent's end and is never extended to it. -/
theorem C3_antardasha_sum_falls_short :
    ((calculate_antardasha Lord.Ketu 0 2556).map
      fun a => a.end_date - a.start_date).sum = 2553
    ∧ mahaDays Lord.Ketu = 2556
    ∧ ((calculate_antardasha Lord.Ketu 0 2556).head?.map fun a => a.start_date)
        = some (0 : ℤ)
    ∧ ((calculate_antardasha Lord.Ketu 0 2556).getLast?.map fun a => a.end_date)
        = some (2553 : ℤ)
    ∧ (2553 : ℤ) ≠ 2556 := by
  refine ⟨by decide, by decide, by decide, by decide, by decide⟩

/-- Claim C3 (amended).  For a Mahadasha with the standard whole-day duration
`mahaDays lord` and any integer start day: `calculate_antardasha` produces
exactly 9 contiguous sub-periods, the lord sequence starts at the Mahadasha
lord and cycles through all 9 lords, the i-th duration is
`int((mahadasha_years * antardasha_lord_years) / 120 * 365.25)` days, and the
durations sum to between 3 and 5 days less than the parent's duration (the
floored sub-periods undershoot; no clipping to the parent's end occurs). -/
theorem C3_antardasha_structure (L : Lord) (s : ℤ) :
    (calculate_antardasha L (s : ℚ) ((s + mahaDays L : ℤ) : ℚ)).length = 9
    ∧ (calculate_antardasha L (s : ℚ) ((s + mahaDays L : ℤ) : ℚ)).map
        (fun a => a.antardasha_lord)
        = (List.range 9).map (fun i => lordAt ((lordIndex L + i) % 9))
    ∧ (calculate_antardasha L (s : ℚ) ((s + mahaDays L : ℤ) : ℚ)).map
        (fun a => a.end_date - a.start_date)
        = (List.range 9).map (fun i =>
            pyInt (((DASHA_YEARS L : ℚ) *
              (DASHA_YEARS (lordAt ((lordIndex L + i) % 9)) : ℚ)) / 120 * 365.25))
    ∧ List.Chain' (fun a b => a.end_date = b.start_date)
        (calculate_antardasha L (s : ℚ) ((s + mahaDays L : ℤ) : ℚ))
    ∧ mahaDays L - 5 ≤ ((calculate_antardasha L (s : ℚ) ((s + mahaDays L : ℤ) : ℚ)).map
        (fun a => a.end_date - a.start_date)).sum
    ∧ ((calculate_antardasha L (s : ℚ) ((s + mahaDays L : ℤ) : ℚ)).map
        (fun a => a.end_date - a.start_date)).sum ≤ mahaDays L - 3 := by
  have key := calculate_antardasha_shift L s 0 ((mahaDays L : ℚ))
  rw [zero_add] at key
  have harg : ((s + mahaDays L : ℤ) : ℚ) = (mahaDays L : ℚ) + (s : ℚ) := by
    push_cast
    ring
  rw [harg, key]
  have hdur : ((calculate_antardasha L 0 (mahaDays L : ℚ)).map (shiftAntar s)).map
      (fun a => a.end_date - a.start_date)
      = (calculate_antardasha L 0 (mahaDays L : ℚ)).map
        (fun a => a.end_date - a.start_date) := by
    rw [List.map_map]
    refine List.map_congr_left fun a _ => ?_
    simp [shiftAntar]
  have hlord : ((calculate_antardasha L 0 (mahaDays L : ℚ)).map (shiftAntar s)).map
      (fun a => a.antardasha_lord)
      = (calculate_antardasha L 0 (mahaDays L : ℚ)).map (fun a => a.antardasha_lord) := by
    rw [List.map_map]
    refine List.map_congr_left fun a _ => ?_
    simp [shiftAntar]
  refine ⟨?_, ?_, ?_, ?_, ?_, ?_⟩
  · rw [List.length_map]
    cases L <;> decide
  · rw [hlord]
    cases L <;> decide
  · rw [hdur]
    cases L <;> decide
  · rw [List.chain'_map]
    simp only [shiftAntar_end, shiftAntar_start, add_left_inj]
    rw [← chainEqB_iff (fun a : Antardasha => a.start_date)
      (fun a : Antardasha => a.end_date) (calculate_antardasha L 0 (mahaDays L : ℚ))]
    cases L <;> decide
  · rw [hdur]
    cases L <;> decide
  · rw [hdur]
    cases L <;> decide

/-- Claim C4 (counterexample).  With the query-date argument left as `None`,
`get_current_dasha` falls back to the sampled wall clock: the same explicit
inputs give different outputs for two different sampled times, so the current
date is not purely an explicit input. -/
theorem C4_default_date_samples_clock :
    get_current_dasha 0 0 none (-1) ≠ get_current_dasha 0 0 none 1 := by
  decide

/-- Claim C4 (amended).  The query date is an optional parameter: when it is
passed explicitly the dasha lookup and the transit position computation ignore
the sampled wall clock entirely (identical outputs for identical inputs), and
only when it is `None` do they sample `datetime.now()` internally. -/
theorem C4_explicit_date_deterministic (moon birth d now1 now2 : ℚ)
    (julday : ℚ → ℚ) (ephem : ℚ → Planet → ℚ × ℚ) (get_ayanamsa : ℚ → ℚ) :
    get_current_dasha moon birth (some d) now1 = get_current_dasha moon birth (some d) now2
    ∧ get_current_transits julday ephem get_ayanamsa (some d) now1
        = get_current_transits julday ephem get_ayanamsa (some d) now2 :=
  ⟨rfl, rfl⟩

/-- Claim C5: for every birth Moon longitude in `0..360` and every birth
datetime, the 9 generated Mahadashas are contiguous
(`period[i].end = period[i+1].start`) and their total length in days lies
within 9 days (1 day of flooring per period) of the full 120-year cycle
`120 * 365.25` days; the actual total is 43826 = 43830 - 4. -/
theorem C5_mahadasha_cycle_sum (moon birth : ℚ) (h1 : 0 ≤ moon) (h2 : moon < 360) :
    ((((calculate_mahadasha_sequence (get_birth_dasha_lord moon) birth 9).map
        fun m => m.end_date - m.start_date).sum : ℤ) : ℚ) ≤ 120 * 365.25
    ∧ 120 * 365.25 - 9 ≤
      ((((calculate_mahadasha_sequence (get_birth_dasha_lord moon) birth 9).map
        fun m => m.end_date - m.start_date).sum : ℤ) : ℚ)
    ∧ List.Chain' (fun a b => a.end_date = b.start_date)
        (calculate_mahadasha_sequence (get_birth_dasha_lord moon) birth 9) := by
  rw [calculate_mahadasha_sequence_shift]
  have hdur : ((calculate_mahadasha_sequence (get_birth_dasha_lord moon) 0 9).map
      (shiftMaha (Int.floor birth))).map (fun m => m.end_date - m.start_date)
      = (calculate_mahadasha_sequence (get_birth_dasha_lord moon) 0 9).map
        (fun m => m.end_date - m.start_date) := by
    rw [List.map_map]
    refine List.map_congr_left fun m _ => ?_
    simp [shiftMaha]
  have hsum : ((calculate_mahadasha_sequence (get_birth_dasha_lord moon) 0 9).map
      (fun m => m.end_date - m.start_date)).sum = 43826 := by
    cases get_birth_dasha_lord moon <;> decide
  refine ⟨?_, ?_, ?_⟩
  · rw [hdur, hsum]
    norm_num
  · rw [hdur, hsum]
    norm_num
  · rw [List.chain'_map]
    simp only [shiftMaha_end, shiftMaha_start, add_left_inj]
    rw [← chainEqB_iff (fun m : Mahadasha => m.start_date)
      (fun m : Mahadasha => m.end_date)
      (calculate_mahadasha_sequence (get_birth_dasha_lord moon) 0 9)]
    cases get_birth_dasha_lord moon <;> decide

/-- Claim C5 witness: the theorem applied at Moon longitude 32.8, birth 0. -/
theorem C5_mahadasha_cycle_sum_witness :
    (0 : ℚ) ≤ 32.8 ∧ (32.8 : ℚ) < 360 ∧
    ((((calculate_mahadasha_sequence (get_birth_dasha_lord 32.8) 0 9).map
        fun m => m.end_date - m.start_date).sum : ℤ) : ℚ) ≤ 120 * 365.25 :=
  ⟨by decide, by decide, (C5_mahadasha_cycle_sum 32.8 0 (by decide) (by decide)).1⟩

/-! ## Claims about planet sets, transits, houses and divisional charts -/

/-- Claim C6: in each of the three computed planet sets (natal base, transit,
and kundli), Ketu's longitude is exactly `(Rahu.longitude + 180) mod 360` and
Ketu's `is_retrograde` flag is `True`, for every ephemeris output — in
particular regardless of the sign of Rahu's speed. -/
theorem C6_ketu_opposite_rahu (ephem : Planet → ℚ × ℚ) (ayanamsa : ℚ)
    (julday : ℚ → ℚ) (ephemT : ℚ → Planet → ℚ × ℚ) (get_ayanamsa : ℚ → ℚ)
    (date : Option ℚ) (now : ℚ) :
    ((get_all_planets ephem ayanamsa Planet.Ketu).longitude
        = pyMod ((get_all_planets ephem ayanamsa Planet.Rahu).longitude + 180) 360
      ∧ (get_all_planets ephem ayanamsa Planet.Ketu).is_retrograde = true)
    ∧ ((get_current_transits julday ephemT get_ayanamsa date now Planet.Ketu).longitude
        = pyMod ((get_current_transits julday ephemT get_ayanamsa date now
            Planet.Rahu).longitude + 180) 360
      ∧ (get_current_transits julday ephemT get_ayanamsa date now
          Planet.Ketu).is_retrograde = true)
    ∧ ((calculate_all_planets ephem ayanamsa Planet.Ketu).longitude
        = pyMod ((calculate_all_planets ephem ayanamsa Planet.Rahu).longitude + 180) 360
      ∧ (calculate_all_planets ephem ayanamsa Planet.Ketu).is_retrograde = true) :=
  ⟨⟨rfl, rfl⟩, ⟨rfl, rfl⟩, ⟨rfl, rfl⟩⟩

/-- Any reachable raw score is at least 25 (the dusthana minimum), so the
clamp never bites from below. -/
theorem strength_score_lb (h : ℤ) (n : ℕ) : 25 ≤ strength_score h n := by
  have hn : (0 : ℤ) ≤ (n : ℤ) := Int.natCast_nonneg n
  unfold strength_score
  split_ifs <;> omega

/-- For raw scores ≥ 25, the label computed from the raw score agrees with the
fixed thresholds applied to the clamped score. -/
theorem level_spec (sc : ℤ) (hsc : 25 ≤ sc) :
    (get_strength_level sc = "Very Strong" ↔ 80 ≤ min 100 (max 0 sc))
    ∧ (get_strength_level sc = "Strong"
        ↔ 60 ≤ min 100 (max 0 sc) ∧ min 100 (max 0 sc) < 80)
    ∧ (get_strength_level sc = "Moderate"
        ↔ 40 ≤ min 100 (max 0 sc) ∧ min 100 (max 0 sc) < 60)
    ∧ (get_strength_level sc = "Weak"
        ↔ 25 ≤ min 100 (max 0 sc) ∧ min 100 (max 0 sc) < 40)
    ∧ (get_strength_level sc = "Very Weak" ↔ min 100 (max 0 sc) < 25) := by
  unfold get_strength_level
  split_ifs with h80 h60 h40 h25 <;>
    refine ⟨?_, ?_, ?_, ?_, ?_⟩ <;>
    first
      | exact iff_of_true rfl (by omega)
      | exact iff_of_false (by decide) (by omega)

/-- Claim C7: for every house index in 1..12 and every occupant count, the
stored house strength equals the clamp to 0..100 of the weighted sum (base 50,
+20 kendra, +25 trikona, −25 dusthana, +5 per occupant), and the ordinal label
corresponds to the fixed thresholds on that (clamped) score. -/
theorem C7_house_strength (h : ℤ) (n : ℕ) (hh1 : 1 ≤ h) (hh2 : h ≤ 12) :
    stored_strength_score h n
      = min 100 (max 0 (50 + (if h = 1 ∨ h = 4 ∨ h = 7 ∨ h = 10 then 20 else 0)
          + (if h = 1 ∨ h = 5 ∨ h = 9 then 25 else 0)
          - (if h = 6 ∨ h = 8 ∨ h = 12 then 25 else 0) + 5 * (n : ℤ)))
    ∧ (get_strength_level (strength_score h n) = "Very Strong"
        ↔ 80 ≤ stored_strength_score h n)
    ∧ (get_strength_level (strength_score h n) = "Strong"
        ↔ 60 ≤ stored_strength_score h n ∧ stored_strength_score h n < 80)
    ∧ (get_strength_level (strength_score h n) = "Moderate"
        ↔ 40 ≤ stored_strength_score h n ∧ stored_strength_score h n < 60)
    ∧ (get_strength_level (strength_score h n) = "Weak"
        ↔ 25 ≤ stored_strength_score h n ∧ stored_strength_score h n < 40)
    ∧ (get_strength_level (strength_score h n) = "Very Weak"
        ↔ stored_strength_score h n < 25) := by
  have hlvl := level_spec (strength_score h n) (strength_score_lb h n)
  refine ⟨?_, hlvl.1, hlvl.2.1, hlvl.2.2.1, hlvl.2.2.2.1, hlvl.2.2.2.2⟩
  simp only [stored_strength_score, strength_score, List.mem_cons, List.mem_singleton,
    List.not_mem_nil, or_false]

/-- Claim C7 witness: house 1 with no occupants scores 95, labelled Very
Strong. -/
theorem C7_house_strength_witness :
    (1 : ℤ) ≤ 1 ∧ (1 : ℤ) ≤ 12 ∧
      (get_strength_level (strength_score 1 0) = "Very Strong"
        ↔ 80 ≤ stored_strength_score 1 0) :=
  ⟨by decide, by decide, (C7_house_strength 1 0 (by decide) (by decide)).2.1⟩

/-- Claim C8: for Moon sign and Saturn sign both in 1..12, the 7.5-period
condition is active exactly when Saturn's sign is the sign before the Moon
sign (wrapping 1 to 12; phase 1), the Moon sign itself (phase 2) or the sign
after it (wrapping 12 to 1; phase 3), each with its fixed description, and is
inactive with no phase otherwise. -/
theorem C8_sade_sati (m s : ℤ) (hm1 : 1 ≤ m) (hm2 : m ≤ 12)
    (hs1 : 1 ≤ s) (hs2 : s ≤ 12) :
    ((check_sade_sati m s).in_sade_sati = true ↔
      (s = (if m = 1 then 12 else m - 1) ∨ s = m ∨ s = (if m = 12 then 1 else m + 1)))
    ∧ (s = (if m = 1 then 12 else m - 1) →
        (check_sade_sati m s).phase = some 1 ∧
        (check_sade_sati m s).phase_description
          = "Rising Phase (12th from Moon) - Initial challenges")
    ∧ (s = m →
        (check_sade_sati m s).phase = some 2 ∧
        (check_sade_sati m s).phase_description
          = "Peak Phase (on Moon) - Maximum intensity")
    ∧ (s = (if m = 12 then 1 else m + 1) →
        (check_sade_sati m s).phase = some 3 ∧
        (check_sade_sati m s).phase_description
          = "Setting Phase (2nd from Moon) - Challenges reducing")
    ∧ (¬(s = (if m = 1 then 12 else m - 1) ∨ s = m ∨ s = (if m = 12 then 1 else m + 1)) →
        (check_sade_sati m s).in_sade_sati = false ∧ (check_sade_sati m s).phase = none) := by
  interval_cases m <;> interval_cases s <;> decide

/-- Claim C8 witness: natal Moon sign 2 (Taurus), Saturn in sign 1 — phase 1
active (the spec's concrete scenario). -/
theorem C8_sade_sati_witness :
    (1 : ℤ) ≤ 2 ∧ (2 : ℤ) ≤ 12 ∧ (1 : ℤ) ≤ 1 ∧ (1 : ℤ) ≤ 12 ∧
      ((check_sade_sati 2 1).phase = some 1 ∧
        (check_sade_sati 2 1).phase_description
          = "Rising Phase (12th from Moon) - Initial challenges") :=
  ⟨by decide, by decide, by decide, by decide,
    (C8_sade_sati 2 1 (by decide) (by decide) (by decide) (by decide)).2.1 (by decide)⟩

/-- Claim C9: for every longitude in `0..360` each of the 16 divisional-chart
functions is total with a sign number in 1..12, and D1 is the identity on the
sign: its sign number is `floor (L / 30) + 1`. -/
theorem C9_divisional_totality (L : ℚ) (h1 : 0 ≤ L) (h2 : L < 360) :
    (calculate_all_divisional_charts L).length = 16
    ∧ (∀ s ∈ calculate_all_divisional_charts L, 1 ≤ s ∧ s ≤ 12)
    ∧ calculate_d1_rasi L = Int.floor (L / 30) + 1 := by
  have hnn : (0 : ℚ) ≤ L / 30 := div_nonneg h1 (by norm_num)
  have hid : calculate_d1_rasi L = Int.floor (L / 30) + 1 := by
    unfold calculate_d1_rasi
    rw [pyInt_eq_floor_of_nonneg hnn]
  have hd1 : 1 ≤ calculate_d1_rasi L ∧ calculate_d1_rasi L ≤ 12 := by
    rw [hid]
    have hlo : (0 : ℤ) ≤ Int.floor (L / 30) := Int.floor_nonneg.mpr hnn
    have hup : Int.floor (L / 30) < 12 := by
      rw [Int.floor_lt]
      rw [div_lt_iff (by norm_num : (0 : ℚ) < 30)]
      push_cast
      linarith
    omega
  refine ⟨rfl, ?_, hid⟩
  intro s hs
  simp only [calculate_all_divisional_charts, List.mem_cons, List.not_mem_nil,
    or_false] at hs
  rcases hs with rfl | rfl | rfl | rfl | rfl | rfl | rfl | rfl | rfl | rfl | rfl
    | rfl | rfl | rfl | rfl | rfl
  · exact hd1
  · simp only [calculate_d2_hora]
    split_ifs <;> omega
  · unfold calculate_d3_drekkana
    exact normalize_sign_bounds _
  · unfold calculate_d4_chaturthamsa
    exact normalize_sign_bounds _
  · simp only [calculate_d7_saptamsa]
    split_ifs <;> exact normalize_sign_bounds _
  · simp only [calculate_d9_navamsa]
    split_ifs <;> exact normalize_sign_bounds _
  · simp only [calculate_d10_dasamsa]
    split_ifs <;> exact normalize_sign_bounds _
  · unfold calculate_d12_dwadasamsa
    exact normalize_sign_bounds _
  · simp only [calculate_d16_shodasamsa]
    split_ifs <;> exact normalize_sign_bounds _
  · simp only [calculate_d20_vimsamsa]
    split_ifs <;> exact normalize_sign_bounds _
  · simp only [calculate_d24_chaturvimsamsa]
    split_ifs <;> exact normalize_sign_bounds _
  · simp only [calculate_d27_nakshatramsa]
    split_ifs <;> exact normalize_sign_bounds _
  · simp only [calculate_d30_trimsamsa]
    split_ifs <;> exact normalize_sign_bounds _
  · simp only [calculate_d40_khavedamsa]
    split_ifs <;> exact normalize_sign_bounds _
  · unfold calculate_d45_akshavedamsa
    exact normalize_sign_bounds _
  · unfold calculate_d60_shashtiamsa
    exact normalize_sign_bounds _

/-- Claim C9 witness: the theorem applied at longitude 32.8. -/
theorem C9_divisional_totality_witness :
    (0 : ℚ) ≤ 32.8 ∧ (32.8 : ℚ) < 360 ∧ calculate_d1_rasi 32.8 = Int.floor ((32.8 : ℚ) / 30) + 1 :=
  ⟨by decide, by decide, (C9_divisional_totality 32.8 (by decide) (by decide)).2.2⟩

/-! ## Claim C10: boundary semantics of the active-period lookup -/

/-- The `i`-th Mahadasha of the birth-at-day-0 sequence. -/
def mahaAt (L : Lord) (i : ℕ) : Mahadasha :=
  (calculate_mahadasha_sequence L 0 9).getD i
    { lord := Lord.Ketu, start_date := 0, end_date := 0, duration_years := 0 }

/-- For every starting lord and each of the 8 shared boundaries of the
birth-at-0 sequence: the boundary day is the end of one period and the start
of the next (hence contained in both closed intervals), and the scan resolves
the boundary to the later Mahadasha (the earlier one's antardashas fall short
of its end). -/
theorem boundary_scan_later (L : Lord) : ∀ i : Fin 8,
    (mahaAt L i.1).end_date = (mahaAt L (i.1 + 1)).start_date
    ∧ (mahaAt L i.1).start_date ≤ (mahaAt L i.1).end_date
    ∧ (mahaAt L (i.1 + 1)).start_date ≤ (mahaAt L i.1).end_date
    ∧ (mahaAt L i.1).end_date ≤ (mahaAt L (i.1 + 1)).end_date
    ∧ ((scanMahas ((mahaAt L i.1).end_date : ℚ)
        (calculate_mahadasha_sequence L 0 9)).map fun r => r.mahadasha)
        = some (mahaAt L (i.1 + 1)) := by
  cases L <;> decide

/-- Claim C10 (counterexample).  Moon longitude 0, birth at day 0: day 2556 is
the shared boundary of the Ketu Mahadasha `0..2556` and the Venus Mahadasha
`2556..9861`; both closed intervals contain it, but `get_current_dasha`
resolves it to the LATER (Venus) Mahadasha, because the Ketu Mahadasha's
antardashas end at day 2553 and its inner scan finds nothing. -/
theorem C10_shared_boundary_later_mahadasha :
    ((calculate_mahadasha_sequence (get_birth_dasha_lord 0) 0 9).head?.map
      fun m => (m.lord, m.start_date, m.end_date)) = some (Lord.Ketu, 0, 2556)
    ∧ (((calculate_mahadasha_sequence (get_birth_dasha_lord 0) 0 9).drop 1).head?.map
      fun m => (m.lord, m.start_date, m.end_date)) = some (Lord.Venus, 2556, 9861)
    ∧ ((get_current_dasha 0 0 (some 2556) 0).map fun r => r.mahadasha.lord)
        = some Lord.Venus
    ∧ Lord.Venus ≠ Lord.Ketu := by
  refine ⟨by decide, by decide, by decide, by decide⟩

/-- Claim C10 (amended).  Containment is tested with intervals closed at both
endpoints over day-floored dates at all three levels, so a query on a shared
boundary is contained in both adjacent periods.  At the Antardasha and
Pratyantardasha levels every lookup result is the EARLIEST generated
sub-period containing the query — whenever any generated sub-period at
position `j` contains the query, the returned one occurs at a position
`k ≤ j` — so a boundary shared by two consecutive sub-periods is resolved to
the earlier one, never the later, in every Mahadasha and every Antardasha.
At the Mahadasha level, however, the lookup resolves every shared boundary to
the LATER Mahadasha (for every birth datetime and Moon longitude): the
earlier Mahadasha matches first, its antardasha scan fails at the boundary,
and the loop falls through. -/
theorem C10_boundary_semantics (moon birth now : ℚ) (h1 : 0 ≤ moon) (h2 : moon < 360)
    (i : ℕ) (hi : i < 8) :
    (mahaAt (get_birth_dasha_lord moon) i).end_date
        = (mahaAt (get_birth_dasha_lord moon) (i + 1)).start_date
    ∧ ((shiftMaha (Int.floor birth) (mahaAt (get_birth_dasha_lord moon) i)).start_date
          ≤ (mahaAt (get_birth_dasha_lord moon) i).end_date + Int.floor birth
        ∧ (mahaAt (get_birth_dasha_lord moon) i).end_date + Int.floor birth
          ≤ (shiftMaha (Int.floor birth) (mahaAt (get_birth_dasha_lord moon) i)).end_date)
    ∧ ((shiftMaha (Int.floor birth) (mahaAt (get_birth_dasha_lord moon) (i + 1))).start_date
          ≤ (mahaAt (get_birth_dasha_lord moon) i).end_date + Int.floor birth
        ∧ (mahaAt (get_birth_dasha_lord moon) i).end_date + Int.floor birth
          ≤ (shiftMaha (Int.floor birth)
              (mahaAt (get_birth_dasha_lord moon) (i + 1))).end_date)
    ∧ ((get_current_dasha moon birth
          (some (((mahaAt (get_birth_dasha_lord moon) i).end_date : ℚ)
            + ((Int.floor birth : ℤ) : ℚ))) now).map fun r => r.mahadasha)
        = some (shiftMaha (Int.floor birth) (mahaAt (get_birth_dasha_lord moon) (i + 1)))
    ∧ (∀ (q : ℚ) (r : CurrentDasha),
        get_current_dasha moon birth (some q) now = some r →
        ((r.mahadasha.start_date : ℚ) ≤ q ∧ q ≤ (r.mahadasha.end_date : ℚ))
        ∧ ((r.antardasha.start_date : ℚ) ≤ q ∧ q ≤ (r.antardasha.end_date : ℚ))
        ∧ (∀ (j : ℕ) (a : Antardasha),
            (calculate_antardasha r.mahadasha.lord (r.mahadasha.start_date : ℚ)
              (r.mahadasha.end_date : ℚ))[j]? = some a →
            ((a.start_date : ℚ) ≤ q ∧ q ≤ (a.end_date : ℚ)) →
            ∃ k, k ≤ j ∧ (calculate_antardasha r.mahadasha.lord
              (r.mahadasha.start_date : ℚ) (r.mahadasha.end_date : ℚ))[k]?
                = some r.antardasha)
        ∧ (∀ p : Pratyantardasha, r.pratyantardasha = some p →
            ((p.start_date : ℚ) ≤ q ∧ q ≤ (p.end_date : ℚ))
            ∧ ∀ (j : ℕ) (x : Pratyantardasha),
                (calculate_pratyantardasha r.mahadasha.lord
                  r.antardasha.antardasha_lord (r.antardasha.start_date : ℚ)
                  (r.antardasha.end_date : ℚ))[j]? = some x →
                ((x.start_date : ℚ) ≤ q ∧ q ≤ (x.end_date : ℚ)) →
                ∃ k, k ≤ j ∧ (calculate_pratyantardasha r.mahadasha.lord
                  r.antardasha.antardasha_lord (r.antardasha.start_date : ℚ)
                  (r.antardasha.end_date : ℚ))[k]? = some p)) := by
  rcases boundary_scan_later (get_birth_dasha_lord moon) ⟨i, hi⟩
    with ⟨hb, hs1, hs2, hs3, hscan⟩
  simp only [Fin.val_mk] at hb hs1 hs2 hs3 hscan
  refine ⟨hb, ⟨?_, ?_⟩, ⟨?_, ?_⟩, ?_, ?_⟩
  · rw [shiftMaha_start]
    omega
  · rw [shiftMaha_end]
  · rw [shiftMaha_start]
    omega
  · rw [shiftMaha_end]
    omega
  · rw [get_current_dasha_shift moon birth
      ((mahaAt (get_birth_dasha_lord moon) i).end_date : ℚ) now, Option.map_map]
    have hcomp : ((fun r : CurrentDasha => r.mahadasha) ∘ shiftCurrent (Int.floor birth))
        = (shiftMaha (Int.floor birth)) ∘ (fun r : CurrentDasha => r.mahadasha) := rfl
    rw [hcomp, ← Option.map_map, hscan]
    rfl
  · intro q r hres
    unfold get_current_dasha at hres
    simp only [Option.getD_some] at hres
    rcases scanMahas_result q _ r hres with ⟨hmc, hfa⟩
    rcases findAntar_first r.mahadasha q _ r hfa with ⟨-, j, hj, hac, hearl, hprat⟩
    refine ⟨hmc, hac, ?_, ?_⟩
    · intro ja a hja hca
      by_cases hle : j ≤ ja
      · exact ⟨j, hle, hj⟩
      · exact absurd hca (hearl ja (by omega) a hja)
    · intro p hp
      rw [hp] at hprat
      rcases findPratyantar_first q _ p hprat.symm with ⟨j2, hj2, hpc, hearl2⟩
      refine ⟨hpc, ?_⟩
      intro jp x hjx hcx
      by_cases hle : j2 ≤ jp
      · exact ⟨j2, hle, hj2⟩
      · exact absurd hcx (hearl2 jp (by omega) x hjx)

/-- Claim C10 witness: the amended theorem applied at Moon longitude 0, birth
0, wall clock 0, boundary index 0. -/
theorem C10_boundary_semantics_witness :
    (0 : ℚ) ≤ 0 ∧ (0 : ℚ) < 360 ∧ (0 : ℕ) < 8 ∧
      (mahaAt (get_birth_dasha_lord 0) 0).end_date
        = (mahaAt (get_birth_dasha_lord 0) (0 + 1)).start_date :=
  ⟨by decide, by decide, by decide,
    (C10_boundary_semantics 0 0 0 (by decide) (by decide) 0 (by decide)).1⟩

end ZodiacAI
